import Mathlib

/-!
Value-set document store: a shallow embedding.

This file embeds the value-set data model and the operations of the three
layers found in the repository — `ValueSetLibrary` (value_set_lib.py),
`ValueSetService` (services/value_set_service.py) and `ValueSetRepository`
(repositories/value_set_repository.py) — as pure Lean functions over an
explicit store state, and proves (or refutes) the frozen claims about them.

Modelling conventions:
* A MongoDB collection is a `List ValueSet` in insertion order; `insert_one`
  appends, `find_one`/`find_one_and_update` act on the first matching
  document (Mongo semantics for a non-sorted query).
* Timestamps (`datetime.utcnow()`) are passed in as an explicit `Nat` clock
  value `now`; optional datetimes are `Option Nat`.
* A labels subdocument is an association list `List (String × String)` from
  language code to text; Mongo's dotted `$set labels.lang` is `setLang`.
* Python `raise ValueError` is `Except` with a dedicated error inductive
  (error kinds stand in for the message strings of the source).
* Python truthiness on optional strings (`if x:`) is `strTruthy`.
* Concurrency is out of scope: every operation is an atomic function from
  store to store, matching one request executing alone.
-/

/-- An item embedded in a value set: a code plus a language → text map
(`labels` is the dict of the Python documents, kept as an assoc list). -/
structure Item where
  code : String
  labels : List (String × String)
deriving DecidableEq, Repr

/-- A value-set document as stored in the `value_sets` collection.
`archiveReason`/`archivedBy`/`archivedAt` are the extra fields that
`ValueSetLibrary.archive_value_set` writes ($unset on restore); absence of a
field is `none`. The Mongo `_id` is omitted: no claim depends on it. -/
structure ValueSet where
  key : String
  status : String
  module : String
  description : Option String
  items : List Item
  createdAt : Nat
  createdBy : String
  updatedAt : Option Nat
  updatedBy : Option String
  archiveReason : Option String := none
  archivedBy : Option String := none
  archivedAt : Option Nat := none
deriving DecidableEq, Repr

/-- The collection state. -/
abbrev Store := List ValueSet

/-- `find_one({"key": key})`: first document with the given key. -/
def findByKey (s : Store) (key : String) : Option ValueSet :=
  s.find? (fun d => d.key == key)

/-- `find_one_and_update(filter, update)`: update the first document
satisfying `p` with `f`, returning the new store and (per
`ReturnDocument.AFTER`) the updated document, or `none` if nothing matched. -/
def updateFirst (s : Store) (p : ValueSet → Bool) (f : ValueSet → ValueSet) :
    Store × Option ValueSet :=
  match s with
  | [] => ([], none)
  | d :: rest =>
    if p d then (f d :: rest, some (f d))
    else
      let r := updateFirst rest p f
      (d :: r.1, r.2)

/-- Python truthiness of an optional string: `None` and `""` are falsy. -/
def strTruthy : Option String → Bool
  | some s => s != ""
  | none => false

/-- Lookup in a labels assoc list (first binding of the language). -/
def lookupLang (labels : List (String × String)) (lang : String) : Option String :=
  labels.lookup lang

/-- Mongo `$set labels.lang = v`: overwrite the language in place if
present, otherwise add it at the end of the subdocument. (The labels dict
has unique language keys, so overwriting the first binding is the general
dict-update semantics.) -/
def setLang : List (String × String) → String → String → List (String × String)
  | [], lang, v => [(lang, v)]
  | p :: tl, lang, v =>
    if p.1 == lang then (p.1, v) :: tl else p :: setLang tl lang v

/-- Fold of `setLang` over all languages of an update dict (the loop
`for lang, label in value.items()` of `update_item_in_value_set`). -/
def mergeLabels (labels : List (String × String))
    (upd : List (String × String)) : List (String × String) :=
  upd.foldl (fun acc p => setLang acc p.1 p.2) labels

/-- Mongo positional `$` update: apply `f` to the first item whose code
matches (the element selected by the `items.code` filter). -/
def updateFirstItem (its : List Item) (code : String) (f : Item → Item) :
    List Item :=
  match its with
  | [] => []
  | it :: rest =>
    if it.code == code then f it :: rest else it :: updateFirstItem rest code f

/-- Case-insensitive substring test: the `{"$regex": q, "$options": "i"}`
match for a plain (metacharacter-free) query string. -/
def strStartsWithL : List Char → List Char → Bool
  | _, [] => true
  | [], _ :: _ => false
  | a :: as, b :: bs => a == b && strStartsWithL as bs

/-- Does `needle` occur as a contiguous run inside `hay`? -/
def hasSubstr (needle : List Char) : List Char → Bool
  | [] => needle.isEmpty
  | c :: rest => strStartsWithL (c :: rest) needle || hasSubstr needle rest

/-- ASCII lowercasing of one character (the case folding of the `"i"`
regex option, restricted to the ASCII range this model needs). -/
def lowerChar (c : Char) : Char :=
  if 65 ≤ c.toNat ∧ c.toNat ≤ 90 then Char.ofNat (c.toNat + 32) else c

/-- Case-insensitive regex match of a literal query against a field value. -/
def imatch (q s : String) : Bool :=
  hasSubstr (q.toList.map lowerChar) (s.toList.map lowerChar)

-- ==================== ValueSetLibrary (value_set_lib.py) ====================

/-- `check_key_exists`: `count_documents({"key": key}) > 0`. -/
def ValueSetLibrary.check_key_exists (s : Store) (key : String) : Bool :=
  s.countP (fun d => d.key == key) > 0

/-- Error kinds of `create_value_set` (each a distinct `ValueError` message
in the source). -/
inductive CreateErr
  | duplicateKey
  | duplicateItemCode
  | invalidItemCount
deriving DecidableEq, Repr

/-- `ValueSetLibrary.create_value_set`: duplicate-key check, unique item
codes (`len(codes) != len(set(codes))`), item count in [1, 500], then
`insert_one` of the prepared document. Returns the new store and the
created document. -/
def ValueSetLibrary.create_value_set (s : Store) (key status module : String)
    (items : List Item) (created_by : String) (description : Option String)
    (created_at : Option Nat) (now : Nat) :
    Except CreateErr (Store × ValueSet) :=
  if ValueSetLibrary.check_key_exists s key then
    .error .duplicateKey
  else
    let item_codes := items.map (·.code)
    if item_codes.length ≠ item_codes.dedup.length then
      .error .duplicateItemCode
    else if ¬ (1 ≤ items.length ∧ items.length ≤ 500) then
      .error .invalidItemCount
    else
      let document : ValueSet :=
        { key := key, status := status, module := module,
          description := description, items := items,
          createdAt := created_at.getD now, createdBy := created_by,
          updatedAt := none, updatedBy := none }
      .ok (s ++ [document], document)

/-- Error kinds of `add_item_to_value_set`. -/
inductive AddItemErr
  | notFound
  | duplicateItemCode
deriving DecidableEq, Repr

/-- `ValueSetLibrary.add_item_to_value_set`: not-found check, duplicate-code
check against the current items, then `$push` the item and `$set` the audit
fields. Note: the source performs no 500-item limit check here. -/
def ValueSetLibrary.add_item_to_value_set (s : Store) (key : String)
    (item : Item) (updated_by : String) (now : Nat) :
    Except AddItemErr (Store × Option ValueSet) :=
  match findByKey s key with
  | none => .error .notFound
  | some value_set =>
    let existing_codes := value_set.items.map (·.code)
    if existing_codes.contains item.code then
      .error .duplicateItemCode
    else
      .ok (updateFirst s (fun d => d.key == key) (fun d =>
        { d with items := d.items ++ [item],
                 updatedBy := some updated_by, updatedAt := some now }))

/-- `ValueSetLibrary.remove_item_from_value_set`: unconditional
`find_one_and_update({"key": key}, {"$pull": {"items": {"code": item_code}},
"$set": audit})`. No existence check of the item and no minimum-count
check. -/
def ValueSetLibrary.remove_item_from_value_set (s : Store)
    (key item_code updated_by : String) (now : Nat) :
    Store × Option ValueSet :=
  updateFirst s (fun d => d.key == key) (fun d =>
    { d with items := d.items.filter (fun it => !(it.code == item_code)),
             updatedBy := some updated_by, updatedAt := some now })

/-- Error kinds of `ValueSetLibrary.bulk_add_items`. -/
inductive LibBulkAddErr
  | notFound
  | duplicateInNew
  | duplicateExisting
  | limitExceeded
deriving DecidableEq, Repr

/-- `ValueSetLibrary.bulk_add_items`: not-found check, duplicates among the
incoming codes, overlap with existing codes (`set(new) & set(existing)`),
resulting count ≤ 500; only then one `$push {$each}` plus audit `$set`. -/
def ValueSetLibrary.bulk_add_items (s : Store) (key : String)
    (items : List Item) (updated_by : String) (now : Nat) :
    Except LibBulkAddErr (Store × Option ValueSet) :=
  match findByKey s key with
  | none => .error .notFound
  | some value_set =>
    let existing_codes := value_set.items.map (·.code)
    let new_codes := items.map (·.code)
    if new_codes.length ≠ new_codes.dedup.length then
      .error .duplicateInNew
    else if new_codes.any (fun c => existing_codes.contains c) then
      .error .duplicateExisting
    else if existing_codes.length + items.length > 500 then
      .error .limitExceeded
    else
      .ok (updateFirst s (fun d => d.key == key) (fun d =>
        { d with items := d.items ++ items,
                 updatedBy := some updated_by, updatedAt := some now }))

/-- The `updates` dict passed to `ValueSetLibrary.update_item_in_value_set`:
an optional new `code` and an optional `labels` dict (language → text).
`none` models an absent dict entry. -/
structure LibItemUpdates where
  code : Option String
  labels : Option (List (String × String))
deriving DecidableEq, Repr

/-- Application of the `$set` dict that `update_item_in_value_set` builds
onto the positionally matched item: `items.$.labels.{lang}` per language of
the labels update (a per-language merge), `items.$.code` when provided. -/
def ValueSetLibrary.apply_item_updates (u : LibItemUpdates) (it : Item) :
    Item :=
  let it1 :=
    match u.labels with
    | some ls => { it with labels := mergeLabels it.labels ls }
    | none => it
  match u.code with
  | some c => { it1 with code := c }
  | none => it1

/-- `ValueSetLibrary.update_item_in_value_set`:
`find_one_and_update({"key": key, "items.code": item_code}, {"$set": ...})`
where the `$set` rewrites the matched item per `apply_item_updates` and
refreshes `updatedBy`/`updatedAt`. Returns the store and the AFTER
document (`none` when no document holds the key with that item code). -/
def ValueSetLibrary.update_item_in_value_set (s : Store)
    (key item_code : String) (updates : LibItemUpdates)
    (updated_by : String) (now : Nat) : Store × Option ValueSet :=
  updateFirst s
    (fun d => d.key == key && d.items.any (fun it => it.code == item_code))
    (fun d =>
      { d with
          items := updateFirstItem d.items item_code
            (ValueSetLibrary.apply_item_updates updates),
          updatedBy := some updated_by, updatedAt := some now })

/-- The `updates` dict of `ValueSetLibrary.update_value_set`.
The source takes an arbitrary dict, adds the audit fields, strips `None`
values and passes everything to `$set` — in particular a `key` entry is
applied as-is. `none` models an absent (or stripped `None`) entry. -/
structure LibValueSetUpdates where
  key : Option String := none
  status : Option String := none
  description : Option String := none
  module : Option String := none
  items : Option (List Item) := none
deriving DecidableEq, Repr

/-- `ValueSetLibrary.update_value_set`: audit fields added to the dict, then
`find_one_and_update({"key": key}, {"$set": updates})` with AFTER. -/
def ValueSetLibrary.update_value_set (s : Store) (key : String)
    (updates : LibValueSetUpdates) (updated_by : String) (now : Nat) :
    Store × Option ValueSet :=
  updateFirst s (fun d => d.key == key) (fun d =>
    { d with
        key := updates.key.getD d.key,
        status := updates.status.getD d.status,
        description := (updates.description).elim d.description some,
        module := updates.module.getD d.module,
        items := updates.items.getD d.items,
        updatedBy := some updated_by, updatedAt := some now })

/-- `ValueSetLibrary.archive_value_set`: one unconditional
`find_one_and_update({"key": key}, {"$set": {status, archiveReason,
archivedBy, archivedAt, updatedBy, updatedAt}})` — no already-archived
check. -/
def ValueSetLibrary.archive_value_set (s : Store)
    (key reason archived_by : String) (now : Nat) : Store × Option ValueSet :=
  updateFirst s (fun d => d.key == key) (fun d =>
    { d with status := "archived", archiveReason := some reason,
             archivedBy := some archived_by, archivedAt := some now,
             updatedBy := some archived_by, updatedAt := some now })

/-- One group of the `$group` stage of `ValueSetLibrary.search_items`
(`_id` = the value-set key, matched items pushed back together). -/
structure LibSearchGroup where
  key : String
  module : String
  description : Option String
  items : List Item
deriving DecidableEq, Repr

/-- `ValueSetLibrary.search_items` pipeline: `$match {status: "active"}`,
`$unwind $items`, `$match {items.labels.{lang}: {$regex: q, $options: "i"}}`
(label only — item codes are not searched), `$group` back per value set,
`$facet {data: skip/limit, totalCount}`. Group order follows document
order in this deterministic model. -/
def ValueSetLibrary.search_items (s : Store) (query language_code : String)
    (skip limit : Nat) : List LibSearchGroup × Nat :=
  let groups := (s.filter (fun d => d.status == "active")).filterMap (fun d =>
    let ms := d.items.filter (fun it =>
      match lookupLang it.labels language_code with
      | some l => imatch query l
      | none => false)
    if ms.isEmpty then none
    else some { key := d.key, module := d.module,
                description := d.description, items := ms })
  ((groups.drop skip).take limit, groups.length)

-- ============== ValueSetRepository (value_set_repository.py) ==============

/-- `ValueSetRepository.check_key_exists`. -/
def ValueSetRepository.check_key_exists (s : Store) (key : String) : Bool :=
  s.countP (fun d => d.key == key) > 0

/-- `ValueSetRepository.get_items_by_key`: projection of the `items` field
of the first document with the key, `none` when absent. -/
def ValueSetRepository.get_items_by_key (s : Store) (key : String) :
    Option (List Item) :=
  (findByKey s key).map (·.items)

/-- `ValueSetRepository.update_by_key`: `find_one_and_update({"key": key},
{"$set": update_data})` with AFTER, where `update_data` is applied by `f`. -/
def ValueSetRepository.update_by_key (s : Store) (key : String)
    (f : ValueSet → ValueSet) : Store × Option ValueSet :=
  updateFirst s (fun d => d.key == key) f

/-- `ValueSetRepository.add_item`: `$push` the item and `$set` the audit
fields on the document with the key. -/
def ValueSetRepository.add_item (s : Store) (key : String) (new_item : Item)
    (updated_by : String) (now : Nat) : Store × Option ValueSet :=
  updateFirst s (fun d => d.key == key) (fun d =>
    { d with items := d.items ++ [new_item],
             updatedBy := some updated_by, updatedAt := some now })

/-- `ValueSetRepository.update_item`: `find_one_and_update({"key": key,
"items.code": item_code}, {"$set": set_query})` where `set_query` holds the
audit fields plus `items.$.{field} = value` for each entry of
`item_updates`. A `labels` entry therefore replaces the matched item's
WHOLE labels subdocument (`items.$.labels = dict`) — unlike the library's
per-language dotted writes. -/
def ValueSetRepository.update_item (s : Store) (key item_code : String)
    (item_updates : LibItemUpdates) (updated_by : String) (now : Nat) :
    Store × Option ValueSet :=
  updateFirst s
    (fun d => d.key == key && d.items.any (fun it => it.code == item_code))
    (fun d =>
      { d with
          items := updateFirstItem d.items item_code (fun it =>
            let it1 :=
              match item_updates.labels with
              | some ls => { it with labels := ls }
              | none => it
            match item_updates.code with
            | some c => { it1 with code := c }
            | none => it1),
          updatedBy := some updated_by, updatedAt := some now })

/-- One operation of `ValueSetRepository.bulk_add_items` (its dict has
`key`, `items` and the audit `update_fields`). -/
structure RepoBulkAddOp where
  key : String
  items : List Item
  updatedBy : String
  updatedAt : Nat
deriving DecidableEq, Repr

/-- `ValueSetRepository.bulk_add_items`: one `UpdateOne({"key": op.key},
{$push {$each}, $set})` per operation via `bulk_write`; returns the
modified-document count (each matched document is modified, since the
audit `$set` always changes it). -/
def ValueSetRepository.bulk_add_items (s : Store)
    (operations : List RepoBulkAddOp) : Store × Nat :=
  operations.foldl (fun acc op =>
    let r := updateFirst acc.1 (fun d => d.key == op.key) (fun d =>
      { d with items := d.items ++ op.items,
               updatedBy := some op.updatedBy, updatedAt := some op.updatedAt })
    (r.1, acc.2 + if r.2.isSome then 1 else 0)) (s, 0)

/-- `ValueSetRepository.replace_item_value`: first
`find_one_and_update({"key": key}, {"$pull": {"items": {"code":
old_code}}})` (default BEFORE return, truthy iff the key exists), then —
only if that matched — `find_one_and_update({"key": key}, {$push new_item,
$set audit})` with AFTER. The replacement therefore lands at the END of the
items array. -/
def ValueSetRepository.replace_item_value (s : Store) (key old_code : String)
    (new_item : Item) (updated_by : String) (now : Nat) :
    Store × Option ValueSet :=
  match findByKey s key with
  | none => (s, none)
  | some _ =>
    let s1 := (updateFirst s (fun d => d.key == key) (fun d =>
      { d with items := d.items.filter (fun it => !(it.code == old_code)) })).1
    updateFirst s1 (fun d => d.key == key) (fun d =>
      { d with items := d.items ++ [new_item],
               updatedBy := some updated_by, updatedAt := some now })

/-- `ValueSetRepository.archive`: forces `status := "archived"` into the
update fields and delegates to `update_by_key`. -/
def ValueSetRepository.archive (s : Store) (key : String)
    (updated_by : String) (now : Nat) : Store × Option ValueSet :=
  ValueSetRepository.update_by_key s key (fun d =>
    { d with status := "archived",
             updatedAt := some now, updatedBy := some updated_by })

/-- The `$or` condition of the `ValueSetRepository.search_items` pipeline:
case-insensitive regex on `items.code` OR on `items.labels.{lang}` (a
missing language field never matches). -/
def ValueSetRepository.item_matches (query language_code : String)
    (it : Item) : Bool :=
  imatch query it.code ||
    (match lookupLang it.labels language_code with
     | some l => imatch query l
     | none => false)

/-- One `$group` result of `ValueSetRepository.search_items` (grouped by
document `_id`; only the matching items are pushed back). -/
structure SearchGroup where
  key : String
  module : String
  matchingItems : List Item
deriving DecidableEq, Repr

/-- `ValueSetRepository.search_items`: optional `$match {key}`, `$unwind
$items`, `$match {$or: [code regex, labels.lang regex]}`, `$group` by
document. A document none of whose items match contributes no group.
Group order follows document order in this deterministic model. -/
def ValueSetRepository.key_stage (s : Store) (value_set_key : Option String) :
    Store :=
  match value_set_key with
  | some k => s.filter (fun d => d.key == k)
  | none => s

def ValueSetRepository.search_items (s : Store) (search_query : String)
    (value_set_key : Option String) (language_code : String) :
    List SearchGroup :=
  (ValueSetRepository.key_stage s value_set_key).filterMap (fun d =>
    if (d.items.filter
        (ValueSetRepository.item_matches search_query language_code)).isEmpty
    then none
    else some { key := d.key, module := d.module,
                matchingItems := d.items.filter
                  (ValueSetRepository.item_matches search_query language_code) })

-- ============== ValueSetService (services/value_set_service.py) ==============

/-- `ValueSetService.create_value_set`: same checks as the library version
(duplicate key, unique item codes, count in [1, 500]) and then
`repository.create` (an `insert_one`). -/
def ValueSetService.create_value_set (s : Store) (key status module : String)
    (description : Option String) (items : List Item) (createdBy : String)
    (createdAt : Option Nat) (now : Nat) :
    Except CreateErr (Store × ValueSet) :=
  if ValueSetRepository.check_key_exists s key then
    .error .duplicateKey
  else
    let item_codes := items.map (·.code)
    if item_codes.length ≠ item_codes.dedup.length then
      .error .duplicateItemCode
    else if ¬ (1 ≤ items.length ∧ items.length ≤ 500) then
      .error .invalidItemCount
    else
      let document : ValueSet :=
        { key := key, status := status, module := module,
          description := description, items := items,
          createdAt := createdAt.getD now, createdBy := createdBy,
          updatedAt := none, updatedBy := none }
      .ok (s ++ [document], document)

/-- `ValueSetUpdateSchema` as the service receives it: optional status /
description / module / items plus the audit inputs. -/
structure ValueSetUpdate where
  status : Option String := none
  description : Option String := none
  module : Option String := none
  items : Option (List Item) := none
  updatedBy : String
  updatedAt : Option Nat := none
deriving DecidableEq, Repr

/-- Error kinds raised by `ValueSetService.update_value_set`. -/
inductive SvcUpdateErr
  | duplicateItemCode
  | invalidItemCount
deriving DecidableEq, Repr

/-- `ValueSetService.update_value_set`: existence check, item validation
when a (truthy, i.e. non-empty) items list is provided, then an update
document built ONLY from status / description / module / items plus the
audit fields — the key is never part of it — applied via
`repository.update_by_key`. Truthiness guards of the source: `if
update_data.status:` (an enum, truthy whenever present), `if ... is not
None` for description, `if update_data.module:` (empty string falsy), `if
update_data.items:` (empty list falsy). -/
def ValueSetService.update_value_set (s : Store) (key : String)
    (u : ValueSetUpdate) (now : Nat) :
    Except SvcUpdateErr (Store × Option ValueSet) :=
  match findByKey s key with
  | none => .ok (s, none)
  | some _ =>
    match (match u.items with | some [] => none | x => x :
        Option (List Item)) with
    | some its =>
      let item_codes := its.map (·.code)
      if item_codes.length ≠ item_codes.dedup.length then
        .error .duplicateItemCode
      else if ¬ (1 ≤ its.length ∧ its.length ≤ 500) then
        .error .invalidItemCount
      else
        .ok (ValueSetRepository.update_by_key s key (fun d =>
          { d with
              updatedAt := some (u.updatedAt.getD now),
              updatedBy := some u.updatedBy,
              status := u.status.getD d.status,
              description := (u.description).elim d.description some,
              module := if strTruthy u.module then u.module.getD d.module
                        else d.module,
              items := its }))
    | none =>
      .ok (ValueSetRepository.update_by_key s key (fun d =>
        { d with
            updatedAt := some (u.updatedAt.getD now),
            updatedBy := some u.updatedBy,
            status := u.status.getD d.status,
            description := (u.description).elim d.description some,
            module := if strTruthy u.module then u.module.getD d.module
                      else d.module }))

/-- Error kinds raised by `ValueSetService.add_item_to_value_set`. -/
inductive SvcAddItemErr
  | duplicateItemCode
  | itemLimitExceeded
deriving DecidableEq, Repr

/-- `ValueSetService.add_item_to_value_set`: `get_items_by_key` (None →
result None), duplicate-code check, `len(current_items) >= 500` limit
check, then `repository.add_item`. -/
def ValueSetService.add_item_to_value_set (s : Store) (key : String)
    (item : Item) (updatedBy : String) (now : Nat) :
    Except SvcAddItemErr (Store × Option ValueSet) :=
  match ValueSetRepository.get_items_by_key s key with
  | none => .ok (s, none)
  | some current_items =>
    let existing_codes := current_items.map (·.code)
    if existing_codes.contains item.code then
      .error .duplicateItemCode
    else if current_items.length ≥ 500 then
      .error .itemLimitExceeded
    else
      .ok (ValueSetRepository.add_item s key item updatedBy now)

/-- `LabelUpdateSchema`: optional `en` and `hi` texts. -/
structure LabelUpdate where
  en : Option String := none
  hi : Option String := none
deriving DecidableEq, Repr

/-- `ItemUpdateSchema`: optional new code and optional labels update. -/
structure ItemUpdate where
  code : Option String := none
  labels : Option LabelUpdate := none
deriving DecidableEq, Repr

/-- Error kinds raised by `ValueSetService.update_item_in_value_set`. -/
inductive SvcUpdateItemErr
  | itemNotFound
  | duplicateItemCode
deriving DecidableEq, Repr

/-- The `item_updates` dict the service builds from an `ItemUpdateSchema`:
`code` when truthy; `labels` as ONE dict with `en` (when truthy) and `hi`
(when not None), included only when non-empty. -/
def ValueSetService.build_item_updates (u : ItemUpdate) : LibItemUpdates :=
  { code := if strTruthy u.code then u.code else none,
    labels :=
      match u.labels with
      | some lu =>
        let labels_update : List (String × String) :=
          (if strTruthy lu.en then [("en", lu.en.getD "")] else []) ++
            (match lu.hi with
             | some h => [("hi", h)]
             | none => [])
        if labels_update.isEmpty then none else some labels_update
      | none => none }

/-- `ValueSetService.update_item_in_value_set`: `get_items_by_key` (None →
result None), item-existence check, code-conflict check when a truthy new
code is given, then `repository.update_item` with the built dict — whose
`labels` entry REPLACES the matched item's labels wholesale (see
`ValueSetRepository.update_item`). -/
def ValueSetService.update_item_in_value_set (s : Store)
    (key itemCode : String) (u : ItemUpdate) (updatedBy : String)
    (now : Nat) : Except SvcUpdateItemErr (Store × Option ValueSet) :=
  match ValueSetRepository.get_items_by_key s key with
  | none => .ok (s, none)
  | some current_items =>
    if ¬ current_items.any (fun it => it.code == itemCode) then
      .error .itemNotFound
    else
      let conflict : Bool :=
        match u.code with
        | some c =>
          strTruthy u.code &&
            ((current_items.filter (fun it => !(it.code == itemCode))).map
              (·.code)).contains c
        | none => false
      if conflict then
        .error .duplicateItemCode
      else
        .ok (ValueSetRepository.update_item s key itemCode
          (ValueSetService.build_item_updates u) updatedBy now)

/-- `BulkOperationResponseSchema` (errors kept as their message tags). -/
structure BulkOperationResponse where
  successful : Nat
  failed : Nat
  errors : List String
  processedKeys : List String
deriving DecidableEq, Repr

/-- `ValueSetService.bulk_add_items`: `get_items_by_key` (None → failed
response), overlap check of incoming codes against EXISTING codes only —
the source has no duplicate-within-incoming check — then the 500 limit,
then one `repository.bulk_add_items` operation. -/
def ValueSetService.bulk_add_items (s : Store) (key : String)
    (items : List Item) (updated_by : String) (now : Nat) :
    Store × BulkOperationResponse :=
  match ValueSetRepository.get_items_by_key s key with
  | none =>
    (s, { successful := 0, failed := items.length,
          errors := ["Value set not found"], processedKeys := [] })
  | some current_items =>
    let existing_codes := current_items.map (·.code)
    let new_codes := items.map (·.code)
    let duplicates := new_codes.filter (fun c => existing_codes.contains c)
    if ¬ duplicates.isEmpty then
      (s, { successful := 0, failed := items.length,
            errors := ["Duplicate codes found"], processedKeys := [] })
    else if current_items.length + items.length > 500 then
      (s, { successful := 0, failed := items.length,
            errors := ["Adding items would exceed 500 item limit"],
            processedKeys := [] })
    else
      let r := ValueSetRepository.bulk_add_items s
        [{ key := key, items := items, updatedBy := updated_by,
           updatedAt := now }]
      (r.1, { successful := r.2, failed := items.length - r.2, errors := [],
              processedKeys := if r.2 > 0 then [key] else [] })

/-- `ArchiveRestoreResponseSchema`. -/
structure ArchiveRestoreResponse where
  success : Bool
  key : String
  previousStatus : String
  currentStatus : String
  message : String
deriving DecidableEq, Repr

/-- `ValueSetService.archive_value_set`: `find_by_key` (absent → a
success=false not-found response), an already-archived guard (success=false,
nothing written), otherwise `repository.archive` with fresh audit fields
and a success response carrying previous/new status; the reason is recorded
in the message when truthy. (Quote punctuation of the source's messages is
elided.) -/
def ValueSetService.archive_value_set (s : Store) (key : String)
    (reason : Option String) (updatedBy : String) (now : Nat) :
    Store × ArchiveRestoreResponse :=
  match findByKey s key with
  | none =>
    (s, { success := false, key := key, previousStatus := "unknown",
          currentStatus := "unknown",
          message := "Value set with key not found" })
  | some current =>
    let previous_status := current.status
    if previous_status == "archived" then
      (s, { success := false, key := key, previousStatus := previous_status,
            currentStatus := previous_status,
            message := "Value set is already archived" })
    else
      let r := ValueSetRepository.archive s key updatedBy now
      match r.2 with
      | some _ =>
        (r.1, { success := true, key := key,
                previousStatus := previous_status,
                currentStatus := "archived",
                message := "Value set archived successfully" ++
                  (if strTruthy reason then ": " ++ reason.getD "" else "") })
      | none =>
        (r.1, { success := false, key := key,
                previousStatus := previous_status,
                currentStatus := previous_status,
                message := "Failed to archive value set" })

-- ==================== Shared lemmas ====================

theorem updateFirst_snd (s : Store) (p : ValueSet → Bool)
    (f : ValueSet → ValueSet) :
    (updateFirst s p f).2 = (s.find? p).map f := by
  induction s with
  | nil => rfl
  | cons d rest ih =>
    by_cases h : p d
    · simp [updateFirst, h, List.find?_cons_of_pos _ h]
    · simp [updateFirst, h, List.find?_cons_of_neg _ h, ih]

theorem find?_updateFirst (s : Store) (p : ValueSet → Bool)
    (f : ValueSet → ValueSet) (d : ValueSet)
    (hd : s.find? p = some d) (hf : p (f d) = true) :
    ((updateFirst s p f).1).find? p = some (f d) := by
  induction s with
  | nil => simp at hd
  | cons a rest ih =>
    by_cases h : p a
    · rw [List.find?_cons_of_pos _ h] at hd
      injection hd with hd
      subst hd
      simp [updateFirst, h, List.find?_cons_of_pos _ hf]
    · rw [List.find?_cons_of_neg _ h] at hd
      simp [updateFirst, h, List.find?_cons_of_neg _ h, ih hd]

theorem updateFirstItem_append (pre post : List Item) (it : Item)
    (c : String) (f : Item → Item)
    (hpre : ∀ x ∈ pre, (x.code == c) = false)
    (hit : (it.code == c) = true) :
    updateFirstItem (pre ++ it :: post) c f = pre ++ f it :: post := by
  induction pre with
  | nil => simp [updateFirstItem, hit]
  | cons a as ih =>
    have ha := hpre a (by simp)
    simp only [List.cons_append, updateFirstItem, ha]
    simp [ih (fun x hx => hpre x (by simp [hx]))]

theorem lookupLang_setLang_self (labels : List (String × String))
    (lang v : String) :
    lookupLang (setLang labels lang v) lang = some v := by
  induction labels with
  | nil => simp [setLang, lookupLang, List.lookup]
  | cons p tl ih =>
    obtain ⟨k, w⟩ := p
    by_cases hp : (k == lang) = true
    · have hkl : (lang == k) = true := beq_iff_eq.mpr (beq_iff_eq.mp hp).symm
      simp [setLang, hp, lookupLang, List.lookup, hkl]
    · have hk : k ≠ lang := by simpa using hp
      have hkl : (lang == k) = false := beq_false_of_ne (Ne.symm hk)
      simpa [setLang, hp, lookupLang, List.lookup, hkl] using ih

theorem lookupLang_setLang_ne (labels : List (String × String))
    (lang v l : String) (h : l ≠ lang) :
    lookupLang (setLang labels lang v) l = lookupLang labels l := by
  induction labels with
  | nil =>
    simp [setLang, lookupLang, List.lookup, beq_false_of_ne h]
  | cons p tl ih =>
    obtain ⟨k, w⟩ := p
    by_cases hp : (k == lang) = true
    · have hlk : (l == k) = false :=
        beq_false_of_ne (fun hx => h (hx.trans (beq_iff_eq.mp hp)))
      simp [setLang, hp, lookupLang, List.lookup, hlk]
    · by_cases hlk : (l == k) = true
      · simp [setLang, hp, lookupLang, List.lookup, hlk]
      · have hlk' : (l == k) = false := by simpa using hlk
        simpa [setLang, hp, lookupLang, List.lookup, hlk'] using ih

theorem lookupLang_mergeLabels_absent (labels : List (String × String))
    (upd : List (String × String)) (l : String)
    (h : ∀ p ∈ upd, p.1 ≠ l) :
    lookupLang (mergeLabels labels upd) l = lookupLang labels l := by
  induction upd generalizing labels with
  | nil => rfl
  | cons q tl ih =>
    have hq : l ≠ q.1 := fun hx => h q (by simp) hx.symm
    calc lookupLang (mergeLabels (setLang labels q.1 q.2) tl) l
        = lookupLang (setLang labels q.1 q.2) l :=
          ih _ (fun p hp => h p (by simp [hp]))
      _ = lookupLang labels l := lookupLang_setLang_ne _ _ _ _ hq

theorem lookupLang_mergeLabels_lookup (labels : List (String × String))
    (upd : List (String × String)) (l v : String)
    (hnd : (upd.map Prod.fst).Nodup) (h : upd.lookup l = some v) :
    lookupLang (mergeLabels labels upd) l = some v := by
  induction upd generalizing labels with
  | nil => simp [List.lookup] at h
  | cons q tl ih =>
    by_cases hq : l == q.1
    · have hl : l = q.1 := beq_iff_eq.mp hq
      have hv : v = q.2 := by
        simp only [List.lookup, hq] at h
        injection h with h
        exact h.symm
      have htl : ∀ p ∈ tl, p.1 ≠ l := by
        intro p hp hx
        simp only [List.map_cons, List.nodup_cons] at hnd
        exact hnd.1 (hl ▸ hx ▸ List.mem_map_of_mem Prod.fst hp)
      calc lookupLang (mergeLabels (setLang labels q.1 q.2) tl) l
          = lookupLang (setLang labels q.1 q.2) l :=
            lookupLang_mergeLabels_absent _ _ _ htl
        _ = some v := by rw [hl, hv]; exact lookupLang_setLang_self _ _ _
    · simp only [Bool.not_eq_true] at hq
      simp only [List.lookup, hq] at h
      simp only [List.map_cons, List.nodup_cons] at hnd
      exact ih _ hnd.2 h

-- ==================== Claims ====================

-- A concrete one-item store: removing its only item drains the array.
def c1Item : Item := { code := "A", labels := [("en", "Alpha")] }

def c1Store : Store :=
  [{ key := "K", status := "active", module := "Core", description := none,
     items := [c1Item], createdAt := 0, createdBy := "u",
     updatedAt := none, updatedBy := none }]

/-- C1 (evidence for the code bug): the claim states that after any
successful mutation `1 ≤ len(items) ≤ 500`, and in particular that
RemoveItem on a one-item value set must not succeed in leaving zero items.
`ValueSetLibrary.remove_item_from_value_set` is an unconditional `$pull`,
so on the one-item store it succeeds and returns the stored document with
an empty items array — the invariant the claim (and the spec's §3/§8)
states is broken by this mutation. -/
theorem c1_failing_eval :
    (ValueSetLibrary.remove_item_from_value_set c1Store "K" "A" "u2" 5).2 =
      some { key := "K", status := "active", module := "Core",
             description := none, items := [], createdAt := 0,
             createdBy := "u", updatedAt := some 5,
             updatedBy := some "u2" } := by
  decide

/-- C10: `remove_item_from_value_set` on an existing key whose value set
has no item with the given code succeeds (it returns the stored document),
leaves the items array unchanged, and still overwrites the document's
`updatedAt`/`updatedBy` audit fields — the nominal no-op mutates the audit
fields. -/
theorem c10_remove_absent_code (s : Store) (key item_code updated_by : String)
    (now : Nat) (d : ValueSet)
    (hd : findByKey s key = some d)
    (habsent : ∀ it ∈ d.items, (it.code == item_code) = false) :
    (ValueSetLibrary.remove_item_from_value_set s key item_code
        updated_by now).2 =
      some { d with updatedBy := some updated_by, updatedAt := some now } := by
  unfold ValueSetLibrary.remove_item_from_value_set
  rw [updateFirst_snd]
  unfold findByKey at hd
  rw [hd]
  have hfilter : d.items.filter (fun it => !(it.code == item_code)) =
      d.items := by
    rw [List.filter_eq_self]
    intro a ha
    simp [habsent a ha]
  simp only [Option.map_some']
  rw [hfilter]

def c10Doc : ValueSet :=
  { key := "W10", status := "active", module := "Core", description := none,
    items := [{ code := "X", labels := [("en", "Ex")] }], createdAt := 0,
    createdBy := "u", updatedAt := none, updatedBy := none }

def c10Store : Store := [c10Doc]

/-- C10 witness: removing the absent code "ZZ" from the concrete store
keeps the items and overwrites the audit fields. -/
theorem c10_remove_absent_code_witness :
    (ValueSetLibrary.remove_item_from_value_set c10Store "W10" "ZZ" "u9"
        4).2 =
      some { c10Doc with updatedBy := some "u9", updatedAt := some 4 } :=
  c10_remove_absent_code c10Store "W10" "ZZ" "u9" 4 c10Doc (by decide)
    (by decide)

/-- C9: when ReplaceItemCode runs through the repository's pull-then-push
path (`ValueSetRepository.replace_item_value`), the replaced item moves to
the end of the sequence: for every store holding the key, with the item
carrying `old_code` present but not last, the successful replacement
leaves the pushed `new_item` (which carries the new code) as the last
element of the items array. -/
theorem c9_replace_moves_to_end (s : Store) (key old_code : String)
    (new_item : Item) (updated_by : String) (now : Nat) (d : ValueSet)
    (hd : findByKey s key = some d)
    (hpos : old_code ∈ (d.items.dropLast.map (·.code))) :
    ∃ d', (ValueSetRepository.replace_item_value s key old_code new_item
        updated_by now).2 = some d' ∧
      d'.items.getLast? = some new_item := by
  unfold ValueSetRepository.replace_item_value
  rw [hd]
  dsimp only
  replace hd : List.find? (fun d => d.key == key) s = some d := hd
  have hp := List.find?_some hd
  have hp1 : (fun d : ValueSet => d.key == key)
      { d with items := d.items.filter (fun it => !(it.code == old_code)) } =
        true := hp
  have h1 := find?_updateFirst s (fun d => d.key == key)
    (fun d => { d with
        items := d.items.filter (fun it => !(it.code == old_code)) }) d hd hp1
  rw [updateFirst_snd, h1]
  exact ⟨_, rfl, by simp⟩

def c9Doc : ValueSet :=
  { key := "W9", status := "active", module := "Core", description := none,
    items := [{ code := "A", labels := [("en", "Alpha")] },
              { code := "B", labels := [("en", "Beta")] }],
    createdAt := 0, createdBy := "u", updatedAt := none, updatedBy := none }

def c9Store : Store := [c9Doc]

/-- C9 witness: replacing the non-last item "A" by a new item "N" in the
concrete two-item store leaves the new item as the last element. -/
theorem c9_replace_moves_to_end_witness :
    ∃ d', (ValueSetRepository.replace_item_value c9Store "W9" "A"
        { code := "N", labels := [("en", "New")] } "u9" 6).2 = some d' ∧
      d'.items.getLast? = some { code := "N", labels := [("en", "New")] } :=
  c9_replace_moves_to_end c9Store "W9" "A"
    { code := "N", labels := [("en", "New")] } "u9" 6 c9Doc (by decide)
    (by decide)

/-- C7: on every store already containing a value set with the requested
key, Create fails with the DuplicateKey error — in both the library and
the service implementation. The duplicate-key check precedes the insert,
so the error result carries no mutated store: nothing is inserted and the
existing document is untouched. -/
theorem c7_duplicate_key_create (s : Store)
    (key status module created_by : String) (items : List Item)
    (description : Option String) (created_at : Option Nat) (now : Nat)
    (d : ValueSet) (hd : d ∈ s) (hk : d.key = key) :
    ValueSetLibrary.create_value_set s key status module items created_by
        description created_at now = .error .duplicateKey ∧
    ValueSetService.create_value_set s key status module description items
        created_by created_at now = .error .duplicateKey := by
  have hex : s.countP (fun d => d.key == key) > 0 :=
    List.countP_pos_iff.mpr ⟨d, hd, by simp [hk]⟩
  have h1 : ValueSetLibrary.check_key_exists s key = true := by
    unfold ValueSetLibrary.check_key_exists
    exact decide_eq_true hex
  have h2 : ValueSetRepository.check_key_exists s key = true := by
    unfold ValueSetRepository.check_key_exists
    exact decide_eq_true hex
  constructor
  · unfold ValueSetLibrary.create_value_set
    rw [h1]
    rfl
  · unfold ValueSetService.create_value_set
    rw [h2]
    rfl

def c7Doc : ValueSet :=
  { key := "W7", status := "active", module := "Core", description := none,
    items := [{ code := "X", labels := [("en", "Ex")] }], createdAt := 0,
    createdBy := "u", updatedAt := none, updatedBy := none }

def c7Store : Store := [c7Doc]

/-- C7 witness: creating key "W7" on the concrete store that already holds
it fails with DuplicateKey in both implementations. -/
theorem c7_duplicate_key_create_witness :
    ValueSetLibrary.create_value_set c7Store "W7" "active" "Core"
        [{ code := "Y", labels := [("en", "Why")] }] "u9" none none 3 =
      .error .duplicateKey ∧
    ValueSetService.create_value_set c7Store "W7" "active" "Core" none
        [{ code := "Y", labels := [("en", "Why")] }] "u9" none 3 =
      .error .duplicateKey :=
  c7_duplicate_key_create c7Store "W7" "active" "Core" "u9"
    [{ code := "Y", labels := [("en", "Why")] }] none none 3 c7Doc
    (by decide) (by decide)

def c5Doc : ValueSet :=
  { key := "K5", status := "archived", module := "Core", description := none,
    items := [{ code := "A", labels := [("en", "Alpha")] }], createdAt := 0,
    createdBy := "u", updatedAt := some 1, updatedBy := some "u0",
    archiveReason := some "old", archivedBy := some "u0",
    archivedAt := some 1 }

def c5Store : Store := [c5Doc]

/-- C5 counterexample: the claim says Archive on an already-ARCHIVED value
set fails rather than re-applying the archive. The library implementation
(`ValueSetLibrary.archive_value_set`) has no already-archived guard: on the
archived document it succeeds (returns the document) and re-applies the
archive, overwriting archiveReason/archivedBy/archivedAt and the audit
fields. -/
theorem c5_counterexample :
    (ValueSetLibrary.archive_value_set c5Store "K5" "again" "u9" 9).2 =
      some { c5Doc with
             archiveReason := some "again", archivedBy := some "u9",
             archivedAt := some 9, updatedBy := some "u9",
             updatedAt := some 9 } := by
  decide

/-- C5 (amended): in the service implementation
(`ValueSetService.archive_value_set`): an absent key yields a
success=false not-found response with the store untouched; an
already-archived set yields success=false with status unchanged and the
store untouched; otherwise the document's status becomes archived with the
audit fields refreshed, and the response reports success with the previous
and new status, the reason recorded in the message. -/
theorem c5_service_archive (s : Store) (key updatedBy : String)
    (reason : Option String) (now : Nat) :
    (findByKey s key = none →
      ValueSetService.archive_value_set s key reason updatedBy now =
        (s, { success := false, key := key, previousStatus := "unknown",
              currentStatus := "unknown",
              message := "Value set with key not found" })) ∧
    (∀ d, findByKey s key = some d → d.status = "archived" →
      ValueSetService.archive_value_set s key reason updatedBy now =
        (s, { success := false, key := key, previousStatus := "archived",
              currentStatus := "archived",
              message := "Value set is already archived" })) ∧
    (∀ d, findByKey s key = some d → d.status ≠ "archived" →
      (ValueSetService.archive_value_set s key reason updatedBy now).2 =
        { success := true, key := key, previousStatus := d.status,
          currentStatus := "archived",
          message := "Value set archived successfully" ++
            (if strTruthy reason then ": " ++ reason.getD "" else "") } ∧
      findByKey
          (ValueSetService.archive_value_set s key reason updatedBy now).1
          key =
        some { d with
               status := "archived", updatedAt := some now,
               updatedBy := some updatedBy }) := by
  refine ⟨fun h0 => ?_, fun d hd hstat => ?_, fun d hd hstat => ?_⟩
  · unfold ValueSetService.archive_value_set
    rw [h0]
  · unfold ValueSetService.archive_value_set
    rw [hd]
    dsimp only
    rw [hstat]
    rfl
  · have hbeq : (d.status == "archived") = false := beq_false_of_ne hstat
    have hfd : List.find? (fun x => x.key == key) s = some d := hd
    have hp := List.find?_some hfd
    have hp1 : (fun x : ValueSet => x.key == key)
        { d with status := "archived", updatedAt := some now,
                 updatedBy := some updatedBy } = true := hp
    have harch :
        ValueSetRepository.archive s key updatedBy now =
          (updateFirst s (fun x => x.key == key) (fun x =>
            { x with status := "archived", updatedAt := some now,
                     updatedBy := some updatedBy })) := rfl
    have hsnd :
        (ValueSetRepository.archive s key updatedBy now).2 =
          some { d with
                 status := "archived", updatedAt := some now,
                 updatedBy := some updatedBy } := by
      rw [harch, updateFirst_snd, hfd, Option.map_some']
    have hfst :
        (ValueSetRepository.archive s key updatedBy now).1.find?
            (fun x => x.key == key) =
          some { d with
                 status := "archived", updatedAt := some now,
                 updatedBy := some updatedBy } := by
      rw [harch]
      exact find?_updateFirst s _ _ d hfd hp1
    unfold ValueSetService.archive_value_set
    rw [hd]
    dsimp only
    simp only [hbeq, Bool.false_eq_true, if_false]
    rw [hsnd]
    exact ⟨rfl, hfst⟩

def c5wDoc : ValueSet :=
  { key := "W5", status := "active", module := "Core", description := none,
    items := [{ code := "A", labels := [("en", "Alpha")] }], createdAt := 0,
    createdBy := "u", updatedAt := none, updatedBy := none }

def c5wStore : Store := [c5wDoc]

/-- C5 witness: archiving the concrete ACTIVE value set succeeds, stores
status archived with refreshed audit fields, and reports previous status
active with the reason in the message. -/
theorem c5_service_archive_witness :
    (ValueSetService.archive_value_set c5wStore "W5" (some "r") "u9" 7).2 =
      { success := true, key := "W5", previousStatus := c5wDoc.status,
        currentStatus := "archived",
        message := "Value set archived successfully" ++
          (if strTruthy (some "r") then ": " ++ (some "r").getD ""
           else "") } ∧
    findByKey
        (ValueSetService.archive_value_set c5wStore "W5" (some "r") "u9"
          7).1 "W5" =
      some { c5wDoc with
             status := "archived", updatedAt := some 7,
             updatedBy := some "u9" } :=
  (c5_service_archive c5wStore "W5" "u9" (some "r") 7).2.2 c5wDoc
    (by decide) (by decide)

def c6Doc : ValueSet :=
  { key := "A6", status := "active", module := "Core", description := none,
    items := [{ code := "X", labels := [("en", "Ex")] }], createdAt := 0,
    createdBy := "u", updatedAt := none, updatedBy := none }

def c6Store : Store := [c6Doc]

/-- C6 counterexample: the claim says the stored key is immutable for
every updates payload, including one that contains a `key` entry. The
library implementation (`ValueSetLibrary.update_value_set`) passes the
whole updates dict to `$set`, so an updates payload with a `key` entry
renames the stored document: here the document keyed "A6" ends up keyed
"B6". -/
theorem c6_counterexample :
    ((ValueSetLibrary.update_value_set c6Store "A6" { key := some "B6" }
        "u9" 3).1).map (·.key) = ["B6"] := by
  decide

/-- C6 (amended): in the service implementation
(`ValueSetService.update_value_set`), the update document is built only
from status / description / module / items plus the audit fields — a key
can never be part of the payload schema — so for every payload the stored
document's key after the operation equals its key before. -/
theorem c6_service_key_immutable (s : Store) (key : String)
    (u : ValueSetUpdate) (now : Nat) (d : ValueSet)
    (hd : findByKey s key = some d) (s2 : Store) (od : Option ValueSet)
    (hres : ValueSetService.update_value_set s key u now = .ok (s2, od)) :
    ∀ d2, od = some d2 → d2.key = d.key := by
  intro d2 hd2
  subst hd2
  unfold ValueSetService.update_value_set at hres
  rw [hd] at hres
  dsimp only at hres
  have hfd : List.find? (fun x => x.key == key) s = some d := hd
  split at hres
  · split at hres
    · exact absurd hres (by simp)
    · split at hres
      · exact absurd hres (by simp)
      · rw [Except.ok.injEq] at hres
        have hsnd := congrArg Prod.snd hres
        dsimp only at hsnd
        rw [ValueSetRepository.update_by_key, updateFirst_snd, hfd,
          Option.map_some'] at hsnd
        injection hsnd with h3
        rw [← h3]
  · rw [Except.ok.injEq] at hres
    have hsnd := congrArg Prod.snd hres
    dsimp only at hsnd
    rw [ValueSetRepository.update_by_key, updateFirst_snd, hfd,
      Option.map_some'] at hsnd
    injection hsnd with h3
    rw [← h3]

def c6wDoc : ValueSet :=
  { c6Doc with
    status := "archived", updatedAt := some 3, updatedBy := some "u9" }

/-- C6 witness: a concrete service update (status change) of the document
keyed "A6" yields a stored document whose key is still "A6". -/
theorem c6_service_key_immutable_witness : c6wDoc.key = c6Doc.key :=
  c6_service_key_immutable c6Store "A6"
    { status := some "archived", updatedBy := "u9" } 3 c6Doc (by decide)
    [c6wDoc] (some c6wDoc) (by rfl) c6wDoc rfl

def c4SvcDoc : ValueSet :=
  { key := "S4", status := "active", module := "Core", description := none,
    items := [{ code := "A", labels := [("en", "Alpha"), ("hi", "Hindi")] }],
    createdAt := 0, createdBy := "u", updatedAt := none, updatedBy := none }

def c4SvcStore : Store := [c4SvcDoc]

/-- C4 counterexample: the claim says every language present in the
existing labels but absent from the update (here "hi" when only "en" is
supplied) is left untouched. On the service + repository path
(`ValueSetService.update_item_in_value_set` →
`ValueSetRepository.update_item`, its `$set items.$.labels = dict`), the
item that held both "en" and "hi" ends up with labels `[("en",
"NewAlpha")]` — the "hi" label is dropped, not left untouched. -/
theorem c4_counterexample :
    c4SvcDoc.items.map (·.labels) = [[("en", "Alpha"), ("hi", "Hindi")]] ∧
    (ValueSetService.update_item_in_value_set c4SvcStore "S4" "A"
        { code := none, labels := some { en := some "NewAlpha", hi := none } }
        "u9" 9).map (fun r => r.2.map (fun x => x.items.map (·.labels))) =
      .ok (some [[("en", "NewAlpha")]]) :=
  ⟨rfl, rfl⟩

/-- C4 (amended): on the library path
(`ValueSetLibrary.update_item_in_value_set`, dotted
`$set items.$.labels.{lang}` writes), an update whose `labels` dict is
`ls` rewrites the positionally matched item by `apply_item_updates`: the
provided languages are merged per language (each language of `ls`
overwrites or is added), and every language absent from `ls` keeps its
existing value in the resulting item; the other items are untouched. -/
theorem c4_label_merge (s : Store) (key item_code updated_by : String)
    (oc : Option String) (ls : List (String × String)) (now : Nat)
    (d : ValueSet) (pre post : List Item) (it : Item)
    (hd : s.find? (fun x => x.key == key &&
        x.items.any (fun i => i.code == item_code)) = some d)
    (hsplit : d.items = pre ++ it :: post)
    (hpre : ∀ x ∈ pre, (x.code == item_code) = false)
    (hit : (it.code == item_code) = true) :
    (ValueSetLibrary.update_item_in_value_set s key item_code
        { code := oc, labels := some ls } updated_by now).2 =
      some { d with
             items := pre ++ ValueSetLibrary.apply_item_updates
               { code := oc, labels := some ls } it :: post,
             updatedBy := some updated_by, updatedAt := some now } ∧
    (∀ l, (∀ p ∈ ls, p.1 ≠ l) →
      lookupLang (ValueSetLibrary.apply_item_updates
        { code := oc, labels := some ls } it).labels l =
        lookupLang it.labels l) ∧
    (∀ l v, (ls.map Prod.fst).Nodup → ls.lookup l = some v →
      lookupLang (ValueSetLibrary.apply_item_updates
        { code := oc, labels := some ls } it).labels l = some v) := by
  have hlab : (ValueSetLibrary.apply_item_updates
      { code := oc, labels := some ls } it).labels =
        mergeLabels it.labels ls := by
    cases oc <;> rfl
  refine ⟨?_, ?_, ?_⟩
  · unfold ValueSetLibrary.update_item_in_value_set
    rw [updateFirst_snd, hd, Option.map_some']
    rw [hsplit, updateFirstItem_append pre post it item_code
      (ValueSetLibrary.apply_item_updates { code := oc, labels := some ls })
      hpre hit]
  · intro l hl
    rw [hlab]
    exact lookupLang_mergeLabels_absent it.labels ls l hl
  · intro l v hnd hlk
    rw [hlab]
    exact lookupLang_mergeLabels_lookup it.labels ls l v hnd hlk

def c4LibDoc : ValueSet :=
  { key := "K4", status := "active", module := "Core", description := none,
    items := [{ code := "A", labels := [("en", "Alpha"), ("hi", "Hindi")] }],
    createdAt := 0, createdBy := "u", updatedAt := none, updatedBy := none }

def c4LibStore : Store := [c4LibDoc]

/-- C4 witness: the library update of item "A" with labels `[("en",
"NewAlpha")]` yields labels `[("en", "NewAlpha"), ("hi", "Hindi")]` —
the "hi" label survives the merge. -/
theorem c4_label_merge_witness :
    (ValueSetLibrary.update_item_in_value_set c4LibStore "K4" "A"
        { code := none, labels := some [("en", "NewAlpha")] } "u9" 6).2 =
      some { c4LibDoc with
             items := [{ code := "A",
                         labels := [("en", "NewAlpha"), ("hi", "Hindi")] }],
             updatedBy := some "u9", updatedAt := some 6 } ∧
    lookupLang [("en", "NewAlpha"), ("hi", "Hindi")] "hi" = some "Hindi" := by
  have h := c4_label_merge c4LibStore "K4" "A" "u9" none [("en", "NewAlpha")]
    6 c4LibDoc [] []
    { code := "A", labels := [("en", "Alpha"), ("hi", "Hindi")] }
    (by rfl) (by rfl) (by decide) (by rfl)
  exact ⟨h.1, by rfl⟩

def c8LibDoc : ValueSet :=
  { key := "K8L", status := "active", module := "Core", description := none,
    items := [{ code := "FOO", labels := [("en", "Bar")] }], createdAt := 0,
    createdBy := "u", updatedAt := none, updatedBy := none }

def c8LibStore : Store := [c8LibDoc]

/-- C8 counterexample: the claim says an item matches if and only if the
query matches the code OR the language label, so an item whose code
matches but whose label does not is still included. The library
implementation (`ValueSetLibrary.search_items`) matches ONLY against
`items.labels.{lang}`: for the query "fo", the item with code "FOO" (a
case-insensitive code match) and label "Bar" (no label match) is excluded
— the search returns no groups at all. -/
theorem c8_counterexample :
    imatch "fo" "FOO" = true ∧
    ValueSetLibrary.search_items c8LibStore "fo" "en" 0 100 = ([], 0) := by
  refine ⟨by decide, ?_⟩
  decide

/-- C8 (amended): in the repository implementation
(`ValueSetRepository.search_items`), over a store with distinct keys and a
document `d` kept by the optional key filter, an item of `d` appears in
the result group for `d` if and only if it satisfies the `$or` condition
`item_matches` — the case-insensitive match against the item code OR the
`labels[languageCode]` value. In particular a code-only match is
included. -/
theorem c8_repo_search_iff (s : Store) (q lang : String) (vk : Option String)
    (d : ValueSet) (it : Item)
    (hnd : (s.map (·.key)).Nodup) (hd : d ∈ s)
    (hvk : ∀ k, vk = some k → (d.key == k) = true) :
    (∃ g ∈ ValueSetRepository.search_items s q vk lang,
        g.key = d.key ∧ it ∈ g.matchingItems) ↔
      (it ∈ d.items ∧ ValueSetRepository.item_matches q lang it = true) := by
  have hdd : d ∈ ValueSetRepository.key_stage s vk := by
    cases vk with
    | none => exact hd
    | some k => exact List.mem_filter.mpr ⟨hd, hvk k rfl⟩
  have hsub : ∀ x : ValueSet, x ∈ ValueSetRepository.key_stage s vk →
      x ∈ s := by
    cases vk with
    | none => exact fun x hx => hx
    | some k => exact fun x hx => List.mem_of_mem_filter hx
  unfold ValueSetRepository.search_items
  constructor
  · rintro ⟨g, hg, hkey, hit⟩
    rw [List.mem_filterMap] at hg
    obtain ⟨d0, hd0, hF⟩ := hg
    by_cases hemp : (d0.items.filter
        (ValueSetRepository.item_matches q lang)).isEmpty = true
    · rw [if_pos hemp] at hF
      exact absurd hF (by simp)
    · rw [if_neg hemp] at hF
      injection hF with hF
      subst hF
      have hd0d : d0 = d :=
        List.inj_on_of_nodup_map hnd (hsub d0 hd0) hd hkey
      subst hd0d
      have hm := List.mem_filter.mp hit
      exact ⟨hm.1, hm.2⟩
  · rintro ⟨hitd, hmatch⟩
    have hfmem : it ∈ d.items.filter (ValueSetRepository.item_matches q lang) :=
      List.mem_filter.mpr ⟨hitd, hmatch⟩
    have hemp : (d.items.filter
        (ValueSetRepository.item_matches q lang)).isEmpty = false :=
      List.isEmpty_eq_false.mpr (List.ne_nil_of_mem hfmem)
    refine ⟨{ key := d.key, module := d.module,
              matchingItems :=
                d.items.filter (ValueSetRepository.item_matches q lang) },
      ?_, rfl, hfmem⟩
    rw [List.mem_filterMap]
    exact ⟨d, hdd, by rw [if_neg (by simp [hemp])]⟩

def c8Item : Item := { code := "US", labels := [("en", "United States")] }

def c8Doc : ValueSet :=
  { key := "K8", status := "active", module := "Core", description := none,
    items := [c8Item, { code := "CA", labels := [("en", "Canada")] }],
    createdAt := 0, createdBy := "u", updatedAt := none, updatedBy := none }

def c8Store : Store := [c8Doc]

/-- C8 witness: the query "us" matches the item code "US" (its label
"United States" holds no case-insensitive "us" as the code does at the
start), and the repository search over the concrete store includes the
item in the group for "K8". -/
theorem c8_repo_search_iff_witness :
    ∃ g ∈ ValueSetRepository.search_items c8Store "us" (some "K8") "en",
      g.key = c8Doc.key ∧ c8Item ∈ g.matchingItems :=
  (c8_repo_search_iff c8Store "us" "en" (some "K8") c8Doc c8Item
    (by decide) (by decide)
    (by intro k hk; injection hk with hk; rw [← hk]; rfl)).mpr
    ⟨by decide, by decide⟩

def c2Doc : ValueSet :=
  { key := "K2", status := "active", module := "Core", description := none,
    items := [{ code := "A", labels := [("en", "Alpha")] }], createdAt := 0,
    createdBy := "u", updatedAt := none, updatedBy := none }

def c2Store : Store := [c2Doc]

def c2ItemB : Item := { code := "B", labels := [("en", "Beta")] }

/-- C2 (evidence for the code bug): the claim says BulkAddItems appends
nothing when the incoming items contain a duplicate code among
themselves. The library implementation checks this, but the service
implementation (`ValueSetService.bulk_add_items`) only checks the
incoming codes against the EXISTING codes: with incoming `[B, B]` against
existing `[A]`, it pushes both copies — the stored items become
`[A, B, B]` (a duplicated code), and the response even reports
successful=1 / failed=1 while both were applied. -/
theorem c2_failing_eval :
    ValueSetLibrary.bulk_add_items c2Store "K2" [c2ItemB, c2ItemB] "u9" 1 =
      .error .duplicateInNew ∧
    (ValueSetService.bulk_add_items c2Store "K2" [c2ItemB, c2ItemB] "u9"
        1).2 =
      { successful := 1, failed := 1, errors := [],
        processedKeys := ["K2"] } ∧
    ((findByKey (ValueSetService.bulk_add_items c2Store "K2"
        [c2ItemB, c2ItemB] "u9" 1).1 "K2").map
      (fun d => d.items.map (·.code))) = some ["A", "B", "B"] :=
  ⟨rfl, rfl, rfl⟩

def c3Items : List Item :=
  (List.range 500).map
    (fun i => { code := toString i, labels := [("en", toString i)] })

def c3Doc : ValueSet :=
  { key := "K3", status := "active", module := "Core", description := none,
    items := c3Items, createdAt := 0, createdBy := "u", updatedAt := none,
    updatedBy := none }

def c3Store : Store := [c3Doc]

def c3Fresh : Item := { code := "FRESH", labels := [("en", "Fresh")] }

set_option maxRecDepth 8000 in
/-- C3 (evidence for the code bug): on a value set that already holds
exactly 500 items, the service implementation fails with the
ItemLimitExceeded error as the claim says, but the library implementation
(`ValueSetLibrary.add_item_to_value_set`) has no limit check at all: the
same AddItem with a fresh code succeeds and the stored items array grows
to 501. -/
theorem c3_failing_eval :
    c3Doc.items.length = 500 ∧
    ValueSetService.add_item_to_value_set c3Store "K3" c3Fresh "u9" 7 =
      .error .itemLimitExceeded ∧
    (ValueSetLibrary.add_item_to_value_set c3Store "K3" c3Fresh "u9" 7).map
      (fun r => r.2.map (fun d => d.items.length)) = .ok (some 501) :=
  ⟨rfl, rfl, rfl⟩
